import Mathlib

/-!
Verification development for the orchestration logic of `coders.py`
(`SuperTester.forward`): the install → launch Node → launch Django →
Selenium-verify → shutdown sequence.

The Python function is embedded as a pure Lean function over an `Env`
describing the outcomes of the external world (directory existence, exit
codes of synchronous commands, success of the Selenium calls, page body
texts).  The embedding records, besides the returned string, the full
ordered trace of external side effects (`Event`), the final `log` list,
which processes were spawned and killed, and the browser-session state.
-/

set_option maxRecDepth 10000

namespace Coders

/-- One observable external side effect performed by `SuperTester.forward`,
in program order.  `healthPoll` is in the vocabulary so that statements can
express whether any HTTP health-check polling is ever performed; `runFail`
records an attempted synchronous command whose spawn itself failed (the
executable missing — no OS process is created). -/
inductive Event where
  | checkDir (path : String) (found : Bool)
  | runSync (cmd : String) (exitCode : Nat)
  | runFail (cmd : String)
  | spawn (cmd : String)
  | sleep (seconds : Nat)
  | healthPoll
  | openBrowser
  | navigate (url : String)
  | quitBrowser
  | kill (proc : String)
deriving Repr, DecidableEq

/-- `true` exactly for the events that create an OS process:
`subprocess.run` (synchronous) and `subprocess.Popen` (background). -/
def Event.isProcCreation : Event → Bool
  | .runSync _ _ => true
  | .spawn _ => true
  | _ => false

/-- The outcomes of the external world that `SuperTester.forward` consults:
whether the two project directories exist, the exit codes of the two
synchronous commands, whether each Selenium step succeeds, the rendered
body texts, and the message of each possible exception. -/
structure Env where
  nodeDirFound : Bool
  npmInstallExit : Nat
  djangoDirFound : Bool
  migrateExit : Nat
  chromeOk : Bool
  nodeGetOk : Bool
  nodeBodyText : String
  djangoGetOk : Bool
  djangoBodyText : String
  chromeErrMsg : String
  nodeGetErrMsg : String
  djangoGetErrMsg : String
deriving Repr, DecidableEq

/-- The outcome of one synchronous `subprocess.run` call: either the spawn
itself fails (`OSError`/`FileNotFoundError`, e.g. the executable is
missing, so no process is created), or the command runs to completion and
exits with a code. -/
inductive CmdOutcome where
  | spawnFail
  | exited (code : Nat)
deriving Repr, DecidableEq

/-- The exit code of a command that ran (irrelevant default for a spawn
that failed, which produces no exit code). -/
def CmdOutcome.exitCode : CmdOutcome → Nat
  | CmdOutcome.spawnFail => 0
  | CmdOutcome.exited code => code

/-- A Python exception relevant to `SuperTester.forward`'s `subprocess`
calls: the handlers at `coders.py` lines 198 and 229 catch only
`subprocess.CalledProcessError`, so an `OSError` from the spawn itself is
never caught there. -/
inductive PyExc where
  | calledProcessError (msg : String)
  | osError (msg : String)
deriving Repr, DecidableEq

/-- Like `Env`, but with the full outcome of each checked synchronous
command, including the spawn-failure case that `Env` cannot express. -/
structure EnvFull where
  nodeDirFound : Bool
  npmInstall : CmdOutcome
  djangoDirFound : Bool
  migrate : CmdOutcome
  chromeOk : Bool
  nodeGetOk : Bool
  nodeBodyText : String
  djangoGetOk : Bool
  djangoBodyText : String
  chromeErrMsg : String
  nodeGetErrMsg : String
  djangoGetErrMsg : String
deriving Repr, DecidableEq

/-- The observable outcome of one call of `SuperTester.forward`: the
returned string, the final state of the Python `log` list, the ordered
side-effect trace, which background processes were spawned/killed, the
browser-session state, and the PASS/FAIL verification checks performed
(service name paired with whether the expected text was found). -/
structure RunResult where
  result : String
  log : List String
  trace : List Event
  nodeSpawned : Bool
  nodeKilled : Bool
  djangoSpawned : Bool
  djangoKilled : Bool
  driverOpened : Bool
  driverQuit : Bool
  verifications : List (String × Bool)
deriving Repr, DecidableEq

/-- A spawned background process is still running at return time iff it was
spawned and never killed. -/
def RunResult.nodeRunning (r : RunResult) : Bool := r.nodeSpawned && !r.nodeKilled

/-- Same as `nodeRunning`, for the Django server process. -/
def RunResult.djangoRunning (r : RunResult) : Bool := r.djangoSpawned && !r.djangoKilled

/-- Equality of `Except` values is decidable when it is on both sides. -/
def exceptDecEq [DecidableEq ε] [DecidableEq α] :
    (a b : Except ε α) → Decidable (a = b)
  | Except.ok x, Except.ok y =>
      if h : x = y then isTrue (by rw [h]) else isFalse (by simp [h])
  | Except.error x, Except.error y =>
      if h : x = y then isTrue (by rw [h]) else isFalse (by simp [h])
  | Except.ok _, Except.error _ => isFalse (by simp)
  | Except.error _, Except.ok _ => isFalse (by simp)

instance [DecidableEq ε] [DecidableEq α] : DecidableEq (Except ε α) := exceptDecEq

/-- The complete observable outcome of one call of `SuperTester.forward`:
`outcome` is the returned string (`Except.ok`) or the exception that
escaped the call uncaught (`Except.error`); the remaining fields record
the state of the external world at the moment the call completed, whether
by returning or by raising. -/
structure PyRun where
  outcome : Except PyExc String
  log : List String
  trace : List Event
  nodeSpawned : Bool
  nodeKilled : Bool
  djangoSpawned : Bool
  djangoKilled : Bool
  driverOpened : Bool
  driverQuit : Bool
  verifications : List (String × Bool)
deriving Repr, DecidableEq

/-- `true` iff the call completed by returning a string (rather than by
raising an exception to its caller). -/
def PyRun.returned (p : PyRun) : Bool :=
  match p.outcome with
  | Except.ok _ => true
  | Except.error _ => false

/-- The Node server process is still running when the call completes iff
it was spawned and never killed. -/
def PyRun.nodeRunning (p : PyRun) : Bool := p.nodeSpawned && !p.nodeKilled

/-- Same as `PyRun.nodeRunning`, for the Django server process. -/
def PyRun.djangoRunning (p : PyRun) : Bool := p.djangoSpawned && !p.djangoKilled

def nodeDirPath : String := "code/node"
def djangoDirPath : String := "code/django"
def npmInstallCmd : String := "npm install"
def npmStartCmd : String := "npm start"
def migrateCmd : String := "python manage.py migrate"
def runserverCmd : String := "python manage.py runserver 8000"
def nodeUrl : String := "http://localhost:3000"
def djangoUrl : String := "http://localhost:8000"

def nodeMissingMsg : String := "No /code/node folder found. Did you run SuperDeveloper?"
def djangoMissingMsg : String := "No /code/django folder found. Did you run SuperDeveloper?"

def logInstall : String := "[TEST] Installing Node dependencies with 'npm install'..."
def logStartNode : String := "[TEST] Starting Node server on port 3000..."
def logMigrate : String := "[TEST] Applying Django migrations and starting server on port 8000..."
def logSelenium : String := "[TEST] Setting up Selenium (headless Chrome) to test endpoints..."
def logShutdown : String := "[TEST] Shutting down servers..."
def nodePassLine : String := "[TEST] Node server: PASS (contains 'Hello World')."
def nodeFailLine : String := "[TEST] Node server: FAIL (no 'Hello World')."
def djangoPassLine : String := "[TEST] Django server: PASS (contains 'Hello World')."
def djangoFailLine : String := "[TEST] Django server: FAIL (no 'Hello World')."

/-- The character for one decimal digit, as in Python's `str(int)`. -/
def natDigitChar (d : Nat) : Char :=
  if d = 0 then '0' else if d = 1 then '1' else if d = 2 then '2' else if d = 3 then '3'
  else if d = 4 then '4' else if d = 5 then '5' else if d = 6 then '6' else if d = 7 then '7'
  else if d = 8 then '8' else '9'

/-- Fueled base-10 digit accumulation for `natToString`. -/
def natDigitsAux : Nat → Nat → List Char → List Char
  | 0, _, acc => acc
  | fuel + 1, n, acc =>
    let acc2 := natDigitChar (n % 10) :: acc
    if n < 10 then acc2 else natDigitsAux fuel (n / 10) acc2

/-- Base-10 rendering of a natural number, as in Python's `str(int)` for
non-negative values. -/
def natToString (n : Nat) : String := List.asString (natDigitsAux (n + 1) n [])

/-- Rendering of a `subprocess.CalledProcessError` raised by
`subprocess.run(..., check=True)` on a non-zero exit code (the command is
rendered flattened rather than as a Python list repr). -/
def calledProcessErrorStr (cmd : String) (exitCode : Nat) : String :=
  "Command " ++ cmd ++ " returned non-zero exit status " ++ natToString exitCode ++ "."

/-- Rendering of the `FileNotFoundError` raised when the spawn of a
command fails because its executable is missing. -/
def osErrorStr (cmd : String) : String :=
  "No such file or directory: " ++ cmd

/-- `subprocess.run(cmd, check=True)`: raises `FileNotFoundError`/`OSError`
when the spawn itself fails (executable missing), returns normally on exit
code 0, and raises `CalledProcessError` on a non-zero exit code. -/
def checkedRun (cmd : String) : CmdOutcome → Except PyExc Unit
  | CmdOutcome.spawnFail => Except.error (PyExc.osError (osErrorStr cmd))
  | CmdOutcome.exited code =>
      if code = 0 then Except.ok ()
      else Except.error (PyExc.calledProcessError (calledProcessErrorStr cmd code))

/-- `true` iff `pat` occurs at the head of `l`. -/
def leadsList : List Char → List Char → Bool
  | [], _ => true
  | _ :: _, [] => false
  | a :: pr, b :: l => a = b && leadsList pr l

/-- `true` iff `pat` occurs contiguously somewhere in `l`. -/
def occursInList (pat : List Char) : List Char → Bool
  | [] => leadsList pat []
  | b :: l => leadsList pat (b :: l) || occursInList pat l

/-- Python's substring test `pat in body` (for the non-empty patterns used
here). -/
def strContains (body pat : String) : Bool := occursInList pat.toList body.toList

/-- The outcome of the `try:` body of step 4 of `SuperTester.forward`
(Selenium verification): browser-session state, events, log lines appended,
PASS/FAIL checks performed, and the exception escaping the body, if any. -/
structure SelAttempt where
  opened : Bool
  quit : Bool
  events : List Event
  logLines : List String
  verifs : List (String × Bool)
  exc : Option String
deriving Repr, DecidableEq

/-- The `try:` body of step 4 of `SuperTester.forward`: open headless
Chrome, navigate to the Node URL and check its body text, navigate to the
Django URL and check its body text, then quit the driver.  Execution stops
at the first failing step, whose exception is recorded in `exc`; on the
paths where an exception fires after the session opened, `driver.quit()` is
never reached. -/
def seleniumTry (env : EnvFull) : SelAttempt :=
  if env.chromeOk = false then
    { opened := false, quit := false, events := [], logLines := [], verifs := [],
      exc := some env.chromeErrMsg }
  else if env.nodeGetOk = false then
    { opened := true, quit := false, events := [.openBrowser, .navigate nodeUrl],
      logLines := [], verifs := [], exc := some env.nodeGetErrMsg }
  else
    let nodePassed := strContains env.nodeBodyText "Hello World"
    let nodeLine := if nodePassed then nodePassLine else nodeFailLine
    if env.djangoGetOk = false then
      { opened := true, quit := false,
        events := [.openBrowser, .navigate nodeUrl, .navigate djangoUrl],
        logLines := [nodeLine], verifs := [("node", nodePassed)],
        exc := some env.djangoGetErrMsg }
    else
      let djangoPassed := strContains env.djangoBodyText "Hello World"
      let djangoLine := if djangoPassed then djangoPassLine else djangoFailLine
      { opened := true, quit := true,
        events := [.openBrowser, .navigate nodeUrl, .navigate djangoUrl, .quitBrowser],
        logLines := [nodeLine, djangoLine],
        verifs := [("node", nodePassed), ("django", djangoPassed)], exc := none }

/-- Embedding of `SuperTester.forward` (`coders.py`, lines 181-270).  The
`outcome` field is the Python exception channel: `Except.error` means the
exception escaped `forward` to its caller.  Paths, in program order:
1. `code/node` missing: return an error string, nothing ran.
2. `npm install`: a spawn failure (npm missing) raises an uncaught
   `OSError` (the `except` at line 198 catches only `CalledProcessError`);
   a non-zero exit is caught and returns an error string.
3. Spawn `npm start`, `time.sleep(3)`.
4. `code/django` missing: kill the Node process, return an error string.
5. `python manage.py migrate` (inside `try`): a spawn failure (python
   missing) raises an uncaught `OSError` past the handler at line 229
   without killing the Node process; a non-zero exit is caught, the Node
   process is killed, and an error string is returned.
6. Spawn `runserver 8000`, `time.sleep(3)`, run the Selenium block (its
   exception, if any, is caught and logged), kill both processes, and
   return the joined log. -/
def forwardFull (env : EnvFull) : PyRun :=
  if env.nodeDirFound = false then
    { outcome := Except.ok nodeMissingMsg, log := [],
      trace := [.checkDir nodeDirPath false],
      nodeSpawned := false, nodeKilled := false,
      djangoSpawned := false, djangoKilled := false,
      driverOpened := false, driverQuit := false, verifications := [] }
  else
    match checkedRun npmInstallCmd env.npmInstall with
    | Except.error (PyExc.osError e) =>
        { outcome := Except.error (PyExc.osError e),
          log := [logInstall],
          trace := [.checkDir nodeDirPath true, .runFail npmInstallCmd],
          nodeSpawned := false, nodeKilled := false,
          djangoSpawned := false, djangoKilled := false,
          driverOpened := false, driverQuit := false, verifications := [] }
    | Except.error (PyExc.calledProcessError e) =>
        { outcome := Except.ok ("Error installing node dependencies: " ++ e),
          log := [logInstall],
          trace := [.checkDir nodeDirPath true,
                    .runSync npmInstallCmd env.npmInstall.exitCode],
          nodeSpawned := false, nodeKilled := false,
          djangoSpawned := false, djangoKilled := false,
          driverOpened := false, driverQuit := false, verifications := [] }
    | Except.ok _ =>
      let trace1 : List Event :=
        [.checkDir nodeDirPath true, .runSync npmInstallCmd env.npmInstall.exitCode,
         .spawn npmStartCmd, .sleep 3]
      if env.djangoDirFound = false then
        { outcome := Except.ok djangoMissingMsg, log := [logInstall, logStartNode],
          trace := trace1 ++ [.checkDir djangoDirPath false, .kill "node"],
          nodeSpawned := true, nodeKilled := true,
          djangoSpawned := false, djangoKilled := false,
          driverOpened := false, driverQuit := false, verifications := [] }
      else
        match checkedRun migrateCmd env.migrate with
        | Except.error (PyExc.osError e) =>
            { outcome := Except.error (PyExc.osError e),
              log := [logInstall, logStartNode, logMigrate],
              trace := trace1 ++ [.checkDir djangoDirPath true, .runFail migrateCmd],
              nodeSpawned := true, nodeKilled := false,
              djangoSpawned := false, djangoKilled := false,
              driverOpened := false, driverQuit := false, verifications := [] }
        | Except.error (PyExc.calledProcessError e) =>
            { outcome := Except.ok ("Error setting up Django project: " ++ e),
              log := [logInstall, logStartNode, logMigrate],
              trace := trace1 ++
                [.checkDir djangoDirPath true,
                 .runSync migrateCmd env.migrate.exitCode, .kill "node"],
              nodeSpawned := true, nodeKilled := true,
              djangoSpawned := false, djangoKilled := false,
              driverOpened := false, driverQuit := false, verifications := [] }
        | Except.ok _ =>
          let sel := seleniumTry env
          let selLog := sel.logLines ++
            (match sel.exc with
             | some m => ["[TEST] Selenium error: " ++ m]
             | none => [])
          let fullLog := [logInstall, logStartNode, logMigrate, logSelenium] ++
            selLog ++ [logShutdown]
          { outcome := Except.ok (String.intercalate "\n" fullLog),
            log := fullLog,
            trace := trace1 ++
              [.checkDir djangoDirPath true, .runSync migrateCmd env.migrate.exitCode,
               .spawn runserverCmd, .sleep 3] ++
              sel.events ++ [.kill "node", .kill "django"],
            nodeSpawned := true, nodeKilled := true,
            djangoSpawned := true, djangoKilled := true,
            driverOpened := sel.opened, driverQuit := sel.quit,
            verifications := sel.verifs }

/-- Placeholder outcome used only for the case in which the run raised an
exception instead of returning a `RunResult`. -/
def emptyRun : RunResult :=
  { result := "", log := [], trace := [],
    nodeSpawned := false, nodeKilled := false,
    djangoSpawned := false, djangoKilled := false,
    driverOpened := false, driverQuit := false, verifications := [] }

/-- Views an `Env` (which describes runs on which every checked command
spawns and exits with a code) as an `EnvFull`. -/
def extendEnv (env : Env) : EnvFull :=
  { nodeDirFound := env.nodeDirFound,
    npmInstall := CmdOutcome.exited env.npmInstallExit,
    djangoDirFound := env.djangoDirFound,
    migrate := CmdOutcome.exited env.migrateExit,
    chromeOk := env.chromeOk, nodeGetOk := env.nodeGetOk,
    nodeBodyText := env.nodeBodyText, djangoGetOk := env.djangoGetOk,
    djangoBodyText := env.djangoBodyText, chromeErrMsg := env.chromeErrMsg,
    nodeGetErrMsg := env.nodeGetErrMsg, djangoGetErrMsg := env.djangoGetErrMsg }

/-- The `RunResult` of a run of `forwardFull` on an environment in which
both checked commands spawn: such a run always completes by returning, and
`emptyRun` stands in for the (here unreachable) raising case. -/
def runOutcome (env : Env) : RunResult :=
  let p := forwardFull (extendEnv env)
  match p.outcome with
  | Except.ok s =>
      { result := s, log := p.log, trace := p.trace,
        nodeSpawned := p.nodeSpawned, nodeKilled := p.nodeKilled,
        djangoSpawned := p.djangoSpawned, djangoKilled := p.djangoKilled,
        driverOpened := p.driverOpened, driverQuit := p.driverQuit,
        verifications := p.verifications }
  | Except.error _ => emptyRun

/-- The run reaches step 4 (the Selenium verification stage) iff both
directories exist and both checked commands exit 0. -/
def reachesVerify (env : Env) : Bool :=
  env.nodeDirFound && (env.npmInstallExit == 0) &&
    env.djangoDirFound && (env.migrateExit == 0)

/-- An environment in which every external step succeeds and both pages
serve the expected text. -/
def goodEnv : Env :=
  { nodeDirFound := true, npmInstallExit := 0, djangoDirFound := true, migrateExit := 0,
    chromeOk := true, nodeGetOk := true, nodeBodyText := "Hello World",
    djangoGetOk := true, djangoBodyText := "Hello World",
    chromeErrMsg := "chrome binary not found",
    nodeGetErrMsg := "connection refused on port 3000",
    djangoGetErrMsg := "connection refused on port 8000" }

/-- `goodEnv`, except the Django project directory is missing. -/
def envDjangoDirMissing : Env := { goodEnv with djangoDirFound := false }

/-- `goodEnv`, except the migration command exits with status 1. -/
def envMigrateFails : Env := { goodEnv with migrateExit := 1 }

/-- `goodEnv`, except navigating to the Node URL raises inside Selenium. -/
def envNodeGetFails : Env := { goodEnv with nodeGetOk := false }

/-- `goodEnv`, except the Node project directory is missing. -/
def envNodeDirMissing : Env := { goodEnv with nodeDirFound := false }

/-- `goodEnv`, except the Node page body lacks the expected text. -/
def envNodeTextWrong : Env := { goodEnv with nodeBodyText := "Goodbye" }

/-- `goodEnv` viewed as an `EnvFull` (both checked commands spawn). -/
def goodEnvFull : EnvFull := extendEnv goodEnv

/-- `goodEnvFull`, except the spawn of `npm install` itself fails (npm
missing). -/
def envNpmSpawnFails : EnvFull := { goodEnvFull with npmInstall := CmdOutcome.spawnFail }

/-- `goodEnvFull`, except the spawn of the migration command itself fails
(python missing). -/
def envMigrateSpawnFails : EnvFull := { goodEnvFull with migrate := CmdOutcome.spawnFail }

/- ------------------------------------------------------------------ -/
/- Helper lemmas                                                       -/
/- ------------------------------------------------------------------ -/

theorem natDigitChar_ne_lbracket (d : Nat) : natDigitChar d ≠ '[' := by
  intro h
  simp only [natDigitChar] at h
  repeat' split at h
  all_goals exact absurd h (by decide)

theorem natDigitsAux_ne_lbracket (fuel : Nat) :
    ∀ (n : Nat) (acc : List Char), (∀ c ∈ acc, c ≠ '[') →
      ∀ c ∈ natDigitsAux fuel n acc, c ≠ '[' := by
  induction fuel with
  | zero => intro n acc hacc c hc; exact hacc c hc
  | succ fuel ih =>
    intro n acc hacc c hc
    simp only [natDigitsAux] at hc
    have hext : ∀ d ∈ natDigitChar (n % 10) :: acc, d ≠ '[' := by
      intro d hd
      rcases List.mem_cons.mp hd with h | h
      · subst h; exact natDigitChar_ne_lbracket _
      · exact hacc d h
    split at hc
    · exact hext c hc
    · exact ih (n / 10) (natDigitChar (n % 10) :: acc) hext c hc

theorem natToString_ne_lbracket (n : Nat) : ∀ c ∈ (natToString n).toList, c ≠ '[' := by
  intro c hc
  exact natDigitsAux_ne_lbracket (n + 1) n [] (by simp) c hc

theorem occursInList_eq_false (p : Char) (pr l : List Char)
    (h : ∀ c ∈ l, c ≠ p) : occursInList (p :: pr) l = false := by
  induction l with
  | nil => rfl
  | cons b l ih =>
    have hb : (decide (p = b)) = false := by
      simp only [decide_eq_false_iff_not]
      exact fun hpb => (h b (List.mem_cons_self b l)) hpb.symm
    simp only [occursInList, leadsList, hb, Bool.false_and, Bool.false_or]
    exact ih (fun c hc => h c (List.mem_cons_of_mem b hc))

theorem string_toList_append (s t : String) :
    (s ++ t).toList = s.toList ++ t.toList := by
  cases s; cases t; rfl

theorem no_lbracket_append (s t : String) (hs : ∀ c ∈ s.toList, c ≠ '[')
    (ht : ∀ c ∈ t.toList, c ≠ '[') : ∀ c ∈ (s ++ t).toList, c ≠ '[' := by
  intro c hc
  rw [string_toList_append] at hc
  rcases List.mem_append.mp hc with h | h
  · exact hs c h
  · exact ht c h

/-- A string with no `'['` character cannot contain the substring
`"[TEST]"`. -/
theorem strContains_test_eq_false (s : String) (h : ∀ c ∈ s.toList, c ≠ '[') :
    strContains s "[TEST]" = false :=
  occursInList_eq_false '[' "TEST]".toList s.toList h

/-- No character of a rendered `CalledProcessError` message is `'['` (when
the command itself has none). -/
theorem cpes_no_lbracket (cmd : String) (hcmd : ∀ c ∈ cmd.toList, c ≠ '[') (code : Nat) :
    ∀ c ∈ (calledProcessErrorStr cmd code).toList, c ≠ '[' := by
  unfold calledProcessErrorStr
  refine no_lbracket_append _ _ ?_ (by decide)
  refine no_lbracket_append _ _ ?_ (natToString_ne_lbracket code)
  refine no_lbracket_append _ _ ?_ (by decide)
  exact no_lbracket_append _ _ (by decide) hcmd

/-- C1 counterexample: when the spawn of the migration command itself
fails (python missing), the `FileNotFoundError` escapes the
`except CalledProcessError` handler, the run completes by raising, and the
already-spawned Node server process is left running — a run outcome that
leaves a launched process running. -/
theorem orphaned_node_counterexample :
    (forwardFull envMigrateSpawnFails).returned = false ∧
    (forwardFull envMigrateSpawnFails).nodeSpawned = true ∧
    (forwardFull envMigrateSpawnFails).nodeKilled = false := by decide

/-- C1 amended: every run that completes by returning a report leaves
neither the Node nor the Django server process running; but a run on which
the migration command's spawn itself fails escapes as an uncaught
exception with the already-spawned Node server process left running. -/
theorem run_leaves_no_process_running : ∀ env : EnvFull,
    ((forwardFull env).returned = true →
      (forwardFull env).nodeRunning = false ∧ (forwardFull env).djangoRunning = false) ∧
    (env.nodeDirFound = true → env.npmInstall = CmdOutcome.exited 0 →
      env.djangoDirFound = true → env.migrate = CmdOutcome.spawnFail →
      (forwardFull env).nodeRunning = true) := by
  intro env
  constructor
  · obtain ⟨nd, npmI, dd, mig, ch, ng, nb, dg, db, ce, nge, dge⟩ := env
    cases nd <;> cases dd <;> cases ch <;> cases ng <;> cases dg <;>
      rcases npmI with _ | c1 <;> rcases mig with _ | c2
    all_goals try by_cases h1 : c1 = 0
    all_goals try by_cases h2 : c2 = 0
    all_goals simp_all [forwardFull, checkedRun, seleniumTry, PyRun.returned,
      PyRun.nodeRunning, PyRun.djangoRunning, CmdOutcome.exitCode]
  · intro h1 h2 h3 h4
    simp [forwardFull, checkedRun, PyRun.nodeRunning, h1, h2, h3, h4]

/-- Witness for C1 amended: the fully successful run leaves nothing
running, and the migration-spawn-failure run leaves the Node server
running. -/
theorem run_leaves_no_process_running_witness :
    ((forwardFull (extendEnv goodEnv)).nodeRunning = false ∧
      (forwardFull (extendEnv goodEnv)).djangoRunning = false) ∧
    (forwardFull envMigrateSpawnFails).nodeRunning = true :=
  ⟨(run_leaves_no_process_running (extendEnv goodEnv)).1 (by decide),
   (run_leaves_no_process_running envMigrateSpawnFails).2 (by decide) (by decide)
     (by decide) (by decide)⟩

/-- C2 counterexample: in a fully successful run both services are
launched, a fixed 3-second sleep occurs, and no health-check poll is ever
performed — so readiness is not established by polling. -/
theorem readiness_counterexample :
    Event.healthPoll ∉ (runOutcome goodEnv).trace ∧
    Event.sleep 3 ∈ (runOutcome goodEnv).trace ∧
    (runOutcome goodEnv).nodeSpawned = true ∧
    (runOutcome goodEnv).djangoSpawned = true := by decide

/-- C2 amended: no run ever performs a health-check poll; instead, each
launch of the Node and of the Django service is followed by a fixed blind
3-second sleep as the readiness signal. -/
theorem readiness_is_blind_sleep : ∀ env : Env,
    Event.healthPoll ∉ (runOutcome env).trace ∧
    ((runOutcome env).nodeSpawned = true →
      [Event.spawn npmStartCmd, Event.sleep 3].Sublist (runOutcome env).trace) ∧
    ((runOutcome env).djangoSpawned = true →
      [Event.spawn runserverCmd, Event.sleep 3].Sublist (runOutcome env).trace) := by
  intro env
  obtain ⟨nd, npm, dd, mig, ch, ng, nb, dg, db, ce, nge, dge⟩ := env
  cases nd <;> cases dd <;> cases ch <;> cases ng <;> cases dg <;>
    by_cases h1 : npm = 0 <;> by_cases h2 : mig = 0 <;>
      simp [runOutcome, forwardFull, extendEnv, CmdOutcome.exitCode, checkedRun, seleniumTry, h1, h2]
  all_goals decide

/-- Witness for C2 amended, at the fully successful environment. -/
theorem readiness_is_blind_sleep_witness :
    Event.healthPoll ∉ (runOutcome goodEnv).trace ∧
    [Event.spawn npmStartCmd, Event.sleep 3].Sublist (runOutcome goodEnv).trace ∧
    [Event.spawn runserverCmd, Event.sleep 3].Sublist (runOutcome goodEnv).trace :=
  ⟨(readiness_is_blind_sleep goodEnv).1,
   (readiness_is_blind_sleep goodEnv).2.1 (by decide),
   (readiness_is_blind_sleep goodEnv).2.2 (by decide)⟩

/-- C3 counterexample: when the spawn of `npm install` itself fails (npm
missing), `SuperTester.forward` raises the `FileNotFoundError` to its
caller instead of returning a report — a stage-local install failure that
is not caught. -/
theorem uncaught_spawn_exception_counterexample :
    (forwardFull envNpmSpawnFails).outcome =
      Except.error (PyExc.osError (osErrorStr npmInstallCmd)) := by decide

/-- C3 amended: every run on which both checked commands spawn returns a
report (missing directories, non-zero exit codes and Selenium exceptions
are all caught and recorded); but a spawn failure of `npm install` or of
the migration command escapes the run as an uncaught `OSError`, because
the handlers catch only `CalledProcessError`. -/
theorem forward_always_returns : ∀ env : EnvFull,
    (env.npmInstall ≠ CmdOutcome.spawnFail → env.migrate ≠ CmdOutcome.spawnFail →
      (forwardFull env).returned = true) ∧
    (env.nodeDirFound = true → env.npmInstall = CmdOutcome.spawnFail →
      (forwardFull env).outcome = Except.error (PyExc.osError (osErrorStr npmInstallCmd))) ∧
    (env.nodeDirFound = true → env.npmInstall = CmdOutcome.exited 0 →
      env.djangoDirFound = true → env.migrate = CmdOutcome.spawnFail →
      (forwardFull env).outcome = Except.error (PyExc.osError (osErrorStr migrateCmd))) := by
  intro env
  refine ⟨?_, ?_, ?_⟩
  · obtain ⟨nd, npmI, dd, mig, ch, ng, nb, dg, db, ce, nge, dge⟩ := env
    intro hn hm
    rcases npmI with _ | c1
    · exact absurd rfl hn
    · rcases mig with _ | c2
      · exact absurd rfl hm
      · cases nd <;> cases dd <;> cases ch <;> cases ng <;> cases dg <;>
          by_cases h1 : c1 = 0 <;> by_cases h2 : c2 = 0 <;>
            simp [forwardFull, checkedRun, seleniumTry, PyRun.returned, h1, h2]
  · intro h1 h2
    simp [forwardFull, checkedRun, h1, h2]
  · intro h1 h2 h3 h4
    simp [forwardFull, checkedRun, h1, h2, h3, h4]

/-- Witness for C3 amended: the fully successful run returns, and each of
the two spawn-failure runs raises the corresponding uncaught `OSError`. -/
theorem forward_always_returns_witness :
    (forwardFull (extendEnv goodEnv)).returned = true ∧
    (forwardFull envNpmSpawnFails).outcome =
      Except.error (PyExc.osError (osErrorStr npmInstallCmd)) ∧
    (forwardFull envMigrateSpawnFails).outcome =
      Except.error (PyExc.osError (osErrorStr migrateCmd)) :=
  ⟨(forward_always_returns (extendEnv goodEnv)).1 (by decide) (by decide),
   (forward_always_returns envNpmSpawnFails).2.1 (by decide) (by decide),
   (forward_always_returns envMigrateSpawnFails).2.2 (by decide) (by decide)
     (by decide) (by decide)⟩

/-- C4 counterexample: in a fully successful run, verification results are
produced for both services although no health check was ever performed —
so neither service was ever confirmed reachable. -/
theorem verification_without_reachability_counterexample :
    (runOutcome goodEnv).verifications = [("node", true), ("django", true)] ∧
    Event.healthPoll ∉ (runOutcome goodEnv).trace := by decide

/-- C4 amended: no health check exists (no run performs any health-check
poll), and whenever the run reaches the verification stage and the browser
and Node navigation succeed, verification results are produced for
services that were never confirmed reachable. -/
theorem verification_is_ungated : ∀ env : Env,
    Event.healthPoll ∉ (runOutcome env).trace ∧
    (reachesVerify env = true → env.chromeOk = true → env.nodeGetOk = true →
      (runOutcome env).verifications ≠ []) := by
  intro env
  obtain ⟨nd, npm, dd, mig, ch, ng, nb, dg, db, ce, nge, dge⟩ := env
  cases nd <;> cases dd <;> cases ch <;> cases ng <;> cases dg <;>
    by_cases h1 : npm = 0 <;> by_cases h2 : mig = 0 <;>
      simp [runOutcome, forwardFull, extendEnv, CmdOutcome.exitCode, checkedRun, seleniumTry, reachesVerify, h1, h2]

/-- Witness for C4 amended, at the fully successful environment. -/
theorem verification_is_ungated_witness :
    Event.healthPoll ∉ (runOutcome goodEnv).trace ∧
    (runOutcome goodEnv).verifications ≠ [] :=
  ⟨(verification_is_ungated goodEnv).1,
   (verification_is_ungated goodEnv).2 (by decide) rfl rfl⟩

/-- C5 counterexample: when only the Django directory is missing, the run
does fail with the missing-directory message, but the Node server has
already been spawned and processes were created — not zero. -/
theorem django_missing_after_spawn_counterexample :
    (runOutcome envDjangoDirMissing).result = djangoMissingMsg ∧
    (runOutcome envDjangoDirMissing).nodeSpawned = true ∧
    (runOutcome envDjangoDirMissing).trace.filter Event.isProcCreation ≠ [] := by decide

/-- C5 amended: a missing Node directory fails immediately with zero
processes created; a missing Django directory is detected only after
`npm install` has run and the Node server has been spawned, and the Node
process is killed before the run returns. -/
theorem missing_dir_failure_paths : ∀ env : Env,
    (env.nodeDirFound = false →
      (runOutcome env).result = nodeMissingMsg ∧
      (runOutcome env).trace.filter Event.isProcCreation = []) ∧
    (env.nodeDirFound = true → env.npmInstallExit = 0 → env.djangoDirFound = false →
      (runOutcome env).result = djangoMissingMsg ∧
      (runOutcome env).nodeSpawned = true ∧ (runOutcome env).nodeRunning = false) := by
  intro env
  constructor
  · intro h
    simp [runOutcome, forwardFull, extendEnv, CmdOutcome.exitCode, Event.isProcCreation, h]
  · intro h1 h2 h3
    simp [runOutcome, forwardFull, extendEnv, CmdOutcome.exitCode, checkedRun, RunResult.nodeRunning, h1, h2, h3]

/-- Witness for C5 amended, at the two missing-directory environments. -/
theorem missing_dir_failure_paths_witness :
    ((runOutcome envNodeDirMissing).result = nodeMissingMsg ∧
      (runOutcome envNodeDirMissing).trace.filter Event.isProcCreation = []) ∧
    ((runOutcome envDjangoDirMissing).result = djangoMissingMsg ∧
      (runOutcome envDjangoDirMissing).nodeSpawned = true ∧
      (runOutcome envDjangoDirMissing).nodeRunning = false) :=
  ⟨(missing_dir_failure_paths envNodeDirMissing).1 rfl,
   (missing_dir_failure_paths envDjangoDirMissing).2 rfl rfl rfl⟩

/-- C6: if both directories exist, `npm install` succeeds, and the Django
migration exits non-zero, then the run fails with the Django setup error
message, the already-spawned Node process is killed before the run
returns, and the Django server is never spawned. -/
theorem migrate_failure_kills_node : ∀ env : Env,
    env.nodeDirFound = true → env.npmInstallExit = 0 → env.djangoDirFound = true →
    env.migrateExit ≠ 0 →
    (runOutcome env).result =
      "Error setting up Django project: " ++ calledProcessErrorStr migrateCmd env.migrateExit ∧
    (runOutcome env).nodeSpawned = true ∧ (runOutcome env).nodeRunning = false ∧
    (runOutcome env).djangoSpawned = false := by
  intro env h1 h2 h3 h4
  simp [runOutcome, forwardFull, extendEnv, CmdOutcome.exitCode, checkedRun, RunResult.nodeRunning, h1, h2, h3, h4]

/-- Witness for C6, with the migration exiting with status 1. -/
theorem migrate_failure_kills_node_witness :
    (runOutcome envMigrateFails).result =
      "Error setting up Django project: " ++ calledProcessErrorStr migrateCmd 1 ∧
    (runOutcome envMigrateFails).nodeSpawned = true ∧
    (runOutcome envMigrateFails).nodeRunning = false ∧
    (runOutcome envMigrateFails).djangoSpawned = false :=
  migrate_failure_kills_node envMigrateFails rfl rfl rfl (by decide)

/-- C7 counterexample: when navigating to the Node URL raises inside the
Selenium block, the browser session was opened but is never closed — the
run completes with the session still open. -/
theorem driver_leak_counterexample :
    (runOutcome envNodeGetFails).driverOpened = true ∧
    (runOutcome envNodeGetFails).driverQuit = false := by decide

/-- C7 amended: on the fully successful verification path the browser
session is closed before the shutdown step; but on every verification
error path on which the session opened, the session is never closed. -/
theorem driver_quit_only_on_success : ∀ env : Env,
    (reachesVerify env = true → env.chromeOk = true → env.nodeGetOk = true →
      env.djangoGetOk = true →
      (runOutcome env).driverQuit = true ∧
      [Event.quitBrowser, Event.kill "node", Event.kill "django"].Sublist
        (runOutcome env).trace) ∧
    (reachesVerify env = true → env.chromeOk = true →
      (env.nodeGetOk && env.djangoGetOk) = false →
      (runOutcome env).driverOpened = true ∧ (runOutcome env).driverQuit = false) := by
  intro env
  obtain ⟨nd, npm, dd, mig, ch, ng, nb, dg, db, ce, nge, dge⟩ := env
  cases nd <;> cases dd <;> cases ch <;> cases ng <;> cases dg <;>
    by_cases h1 : npm = 0 <;> by_cases h2 : mig = 0 <;>
      simp [runOutcome, forwardFull, extendEnv, CmdOutcome.exitCode, checkedRun, seleniumTry, reachesVerify, h1, h2]
  all_goals decide

/-- Witness for C7 amended, at the all-success environment and at the
environment where Node navigation raises. -/
theorem driver_quit_only_on_success_witness :
    ((runOutcome goodEnv).driverQuit = true ∧
      [Event.quitBrowser, Event.kill "node", Event.kill "django"].Sublist
        (runOutcome goodEnv).trace) ∧
    ((runOutcome envNodeGetFails).driverOpened = true ∧
      (runOutcome envNodeGetFails).driverQuit = false) :=
  ⟨(driver_quit_only_on_success goodEnv).1 (by decide) rfl rfl rfl,
   (driver_quit_only_on_success envNodeGetFails).2 (by decide) rfl (by decide)⟩

/-- C8 counterexample: when verifying the Node URL raises, no verification
is performed for the Django URL either, even though Django's page was
reachable and contained the expected text — the failure on one URL
prevents the verification of the next. -/
theorem node_exception_blocks_django_counterexample :
    envNodeGetFails.djangoGetOk = true ∧
    strContains envNodeGetFails.djangoBodyText "Hello World" = true ∧
    (runOutcome envNodeGetFails).verifications = [] := by decide

/-- C8 amended: a failed text check (expected text absent) on the Node URL
does not prevent Django's verification, but an exception while verifying
the Node URL aborts verification entirely: no verification result is
produced for Django in that run. -/
theorem verification_independence_limited : ∀ env : Env,
    reachesVerify env = true → env.chromeOk = true →
    ((env.nodeGetOk = true → env.djangoGetOk = true →
       ("django", strContains env.djangoBodyText "Hello World") ∈
         (runOutcome env).verifications) ∧
     (env.nodeGetOk = false → (runOutcome env).verifications = [])) := by
  intro env hr hc
  obtain ⟨nd, npm, dd, mig, ch, ng, nb, dg, db, ce, nge, dge⟩ := env
  simp [reachesVerify] at hr
  obtain ⟨h1, h2, h3, h4⟩ := hr
  cases ng <;> cases dg <;>
    simp_all [runOutcome, forwardFull, extendEnv, CmdOutcome.exitCode, checkedRun, seleniumTry]

/-- Witness for C8 amended: with the Node page lacking the expected text
Django is still verified, and with Node navigation raising no verification
is produced at all. -/
theorem verification_independence_limited_witness :
    (("django", true) ∈ (runOutcome envNodeTextWrong).verifications) ∧
    ((runOutcome envNodeGetFails).verifications = []) :=
  ⟨by
    have h := (verification_independence_limited envNodeTextWrong (by decide) rfl).1 rfl rfl
    simpa using h,
   (verification_independence_limited envNodeGetFails (by decide) rfl).2 rfl⟩

/-- C9: the Django stage never begins before the Node launch has resolved:
the Django server can only be spawned if the Node server was spawned, and
whenever the Django stage is reached, the trace begins with the complete
Node sequence (directory check, `npm install`, spawn, readiness sleep)
before the first Django step. -/
theorem django_after_node_resolved : ∀ env : Env,
    ((runOutcome env).djangoSpawned = true → (runOutcome env).nodeSpawned = true) ∧
    (env.nodeDirFound = true → env.npmInstallExit = 0 → env.djangoDirFound = true →
      ∃ rest, (runOutcome env).trace =
        [Event.checkDir nodeDirPath true, Event.runSync npmInstallCmd 0,
         Event.spawn npmStartCmd, Event.sleep 3,
         Event.checkDir djangoDirPath true,
         Event.runSync migrateCmd env.migrateExit] ++ rest) := by
  intro env
  constructor
  · obtain ⟨nd, npm, dd, mig, ch, ng, nb, dg, db, ce, nge, dge⟩ := env
    cases nd <;> cases dd <;> cases ch <;> cases ng <;> cases dg <;>
      by_cases h1 : npm = 0 <;> by_cases h2 : mig = 0 <;>
        simp [runOutcome, forwardFull, extendEnv, CmdOutcome.exitCode, checkedRun, seleniumTry, h1, h2]
  · intro h1 h2 h3
    by_cases h4 : env.migrateExit = 0 <;>
      simp [runOutcome, forwardFull, extendEnv, CmdOutcome.exitCode, checkedRun, h1, h2, h3, h4]

/-- Witness for C9, at the fully successful environment. -/
theorem django_after_node_resolved_witness :
    ∃ rest, (runOutcome goodEnv).trace =
      [Event.checkDir nodeDirPath true, Event.runSync npmInstallCmd 0,
       Event.spawn npmStartCmd, Event.sleep 3,
       Event.checkDir djangoDirPath true, Event.runSync migrateCmd 0] ++ rest :=
  (django_after_node_resolved goodEnv).2 rfl rfl rfl

/-- C10: whenever the run reaches the Selenium verification stage, the
returned string is exactly the joined `log`; on every early-failure return
path the returned string is one of the four bare error messages and
contains no `"[TEST]"` log line. -/
theorem early_failure_returns_bare_message : ∀ env : Env,
    (reachesVerify env = true →
      (runOutcome env).result = String.intercalate "\n" (runOutcome env).log) ∧
    (reachesVerify env = false →
      strContains (runOutcome env).result "[TEST]" = false ∧
      ((runOutcome env).result = nodeMissingMsg ∨
       (runOutcome env).result =
         "Error installing node dependencies: " ++
           calledProcessErrorStr npmInstallCmd env.npmInstallExit ∨
       (runOutcome env).result = djangoMissingMsg ∨
       (runOutcome env).result =
         "Error setting up Django project: " ++
           calledProcessErrorStr migrateCmd env.migrateExit)) := by
  intro env
  obtain ⟨nd, npm, dd, mig, ch, ng, nb, dg, db, ce, nge, dge⟩ := env
  constructor
  · intro h
    simp [reachesVerify] at h
    obtain ⟨⟨⟨h1, h2⟩, h3⟩, h4⟩ := h
    simp [runOutcome, forwardFull, extendEnv, CmdOutcome.exitCode, checkedRun, h1, h2, h3, h4]
  · intro h
    by_cases h1 : nd = true
    · by_cases h2 : npm = 0
      · by_cases h3 : dd = true
        · by_cases h4 : mig = 0
          · exfalso
            simp [reachesVerify, h1, h2, h3, h4] at h
          · constructor
            · have : (runOutcome ⟨nd, npm, dd, mig, ch, ng, nb, dg, db, ce, nge, dge⟩).result =
                  "Error setting up Django project: " ++ calledProcessErrorStr migrateCmd mig := by
                simp [runOutcome, forwardFull, extendEnv, CmdOutcome.exitCode, checkedRun, h1, h2, h3, h4]
              rw [this]
              exact strContains_test_eq_false _
                (no_lbracket_append _ _ (by decide)
                  (cpes_no_lbracket migrateCmd (by decide) mig))
            · right; right; right
              simp [runOutcome, forwardFull, extendEnv, CmdOutcome.exitCode, checkedRun, h1, h2, h3, h4]
        · constructor
          · have : (runOutcome ⟨nd, npm, dd, mig, ch, ng, nb, dg, db, ce, nge, dge⟩).result =
                djangoMissingMsg := by
              simp [runOutcome, forwardFull, extendEnv, CmdOutcome.exitCode, checkedRun, h1, h2, h3]
            rw [this]; decide
          · right; right; left
            simp [runOutcome, forwardFull, extendEnv, CmdOutcome.exitCode, checkedRun, h1, h2, h3]
      · constructor
        · have : (runOutcome ⟨nd, npm, dd, mig, ch, ng, nb, dg, db, ce, nge, dge⟩).result =
              "Error installing node dependencies: " ++ calledProcessErrorStr npmInstallCmd npm := by
            simp [runOutcome, forwardFull, extendEnv, CmdOutcome.exitCode, checkedRun, h1, h2]
          rw [this]
          exact strContains_test_eq_false _
            (no_lbracket_append _ _ (by decide)
              (cpes_no_lbracket npmInstallCmd (by decide) npm))
        · right; left
          simp [runOutcome, forwardFull, extendEnv, CmdOutcome.exitCode, checkedRun, h1, h2]
    · have h1f : nd = false := by simpa using h1
      constructor
      · have : (runOutcome ⟨nd, npm, dd, mig, ch, ng, nb, dg, db, ce, nge, dge⟩).result =
            nodeMissingMsg := by
          simp [runOutcome, forwardFull, extendEnv, CmdOutcome.exitCode, h1f]
        rw [this]; decide
      · left
        simp [runOutcome, forwardFull, extendEnv, CmdOutcome.exitCode, h1f]

/-- Witness for C10: the migration-failure run returns a message free of
`"[TEST]"`, and the fully successful run returns the joined log. -/
theorem early_failure_returns_bare_message_witness :
    (strContains (runOutcome envMigrateFails).result "[TEST]" = false) ∧
    (runOutcome goodEnv).result = String.intercalate "\n" (runOutcome goodEnv).log :=
  ⟨((early_failure_returns_bare_message envMigrateFails).2 (by decide)).1,
   (early_failure_returns_bare_message goodEnv).1 (by decide)⟩

end Coders
